import Mathlib

/-!
Shallow embedding of the VoxStats session-tracking core.

Sources embedded here:
* `voxlib/xp_map.py` — `get_xp_for_level`
* `voxlib/tools.py` — `get_total_xp`, `get_xp_and_stars`
* `voxlib/database/utils/sessions.py` — the `Sessions` table operations
  (`get_session`, `create_session`, `end_session`, `get_active_sessions`)
* `app/cogs/game/sessions.py` — the command-level check-then-act flow
  around the table operations (`start_session`, `end_session`)
* `voxlib/api/player/player.py` — the `PlayerInfo` accessors, each of which
  yields `None` when the external API has no record for the player

Python integers are embedded as `ℤ`.  Python's `//` and `%` by the positive
constant `100` agree with Lean's `Int.ediv` / `Int.emod` (the `/` and `%`
instances on `ℤ`), since Euclidean and floor division coincide for a
positive divisor.  Python's `round(x, 2)` (banker's rounding to two
decimals) is embedded exactly over the rationals by returning the number of
hundredths as an integer, rounding ties to even.
-/

namespace VoxStats

/-- The `cycle` dictionary of `get_xp_for_level` (voxlib/xp_map.py),
`{0: 1000, 1: 2000, 2: 3000, 3: 4000, 4: 5000}`, as a lookup: `some v`
when the key is present (Python `key in cycle`), `none` otherwise. -/
def cycle (m : ℤ) : Option ℤ :=
  if m = 0 then some 1000
  else if m = 1 then some 2000
  else if m = 2 then some 3000
  else if m = 3 then some 4000
  else if m = 4 then some 5000
  else none

/-- The `block` if/elif chain of `get_xp_for_level` (voxlib/xp_map.py),
reached when `level % 100` is not a key of `cycle`. -/
def blockValue (block : ℤ) : ℤ :=
  if block = 0 then 5000
  else if block = 1 then 5500
  else if block = 2 then 6000
  else if block = 3 then 6500
  else if block = 4 then 7000
  else if block = 5 then 7500
  else if block = 6 then 8000
  else if block = 7 then 8500
  else if block = 8 then 9000
  else if block = 9 then 9500
  else 10000

/-- Embedding of `get_xp_for_level` (voxlib/xp_map.py): return
`cycle[level % 100]` when `level % 100` is a key of the dictionary, else
dispatch on `block = level // 100`.  Python's `%` and `//` by the positive
constant `100` agree with `Int.emod` / `Int.ediv`. -/
def get_xp_for_level (level : ℤ) : ℤ :=
  match cycle (level % 100) with
  | some v => v
  | none => blockValue (level / 100)

/-- Embedding of `get_total_xp` (voxlib/tools.py).  The Python loop
`for lvl in range(1, level)` accumulates `get_xp_for_level lvl` for
`lvl = 1, …, level - 1`; `range(1, level)` is empty when `level ≤ 1`. -/
def get_total_xp (level : ℤ) (partial_xp : ℤ) : ℤ :=
  ((List.range (level - 1).toNat).map (fun (i : ℕ) => get_xp_for_level (1 + (i : ℤ)))).sum
    + partial_xp

/-- Rounding of the fraction `n / d` (for `d > 0`) to the nearest integer,
ties to even: the exact-arithmetic content of Python's built-in `round`. -/
def roundHalfEvenDiv (n d : ℤ) : ℤ :=
  let q := n / d
  let r := n % d
  if 2 * r < d then q
  else if d < 2 * r then q + 1
  else if q % 2 = 0 then q else q + 1

/-- Embedding of `get_xp_and_stars` (voxlib/tools.py).  The second
component embeds the float `round(xp_gained / 5000, 2)` as an integer
number of hundredths of a star (so Python's `0.94` is embedded as `94`):
`round(xp_gained / 5000, 2) * 100 = round(xp_gained * 100 / 5000)`. -/
def get_xp_and_stars (old_level old_xp new_level new_xp : ℤ) : ℤ × ℤ :=
  let old := get_total_xp old_level old_xp
  let new := get_total_xp new_level new_xp
  let xp_gained := new - old
  (xp_gained, roundHalfEvenDiv (xp_gained * 100) 5000)

/-- Snapshot of a player's cumulative statistics as exposed by the external
API through `PlayerInfo` (voxlib/api/player/player.py): the seven values
that `create_session` reads (`wins`, `weightedwins`, `kills`, `finals`,
`beds`, `level`, `exp`). -/
structure PlayerSnapshot where
  wins : ℤ
  weightedwins : ℤ
  kills : ℤ
  finals : ℤ
  beds : ℤ
  level : ℤ
  exp : ℤ
deriving DecidableEq, Repr

/-- The Stats Snapshot Source: maps a player UUID to its snapshot, or
`none` when the API has no record for the player (HTTP 400, which
`VoxylAPI.make_request` turns into `None`, and which every `PlayerInfo`
accessor then propagates as `None`). -/
abbrev StatsSource : Type := String → Option PlayerSnapshot

/-- The column values of one row of the `sessions` table, as written by
`Sessions.create_session` (voxlib/database/utils/sessions.py).  Each
counter column holds the value of the corresponding `PlayerInfo` accessor,
which is `None` (embedded as `none`, stored as SQL `NULL`) when the source
has no record; `start_date` holds the `NOW()` timestamp. -/
structure SessionRow where
  wins : Option ℤ
  weighted : Option ℤ
  kills : Option ℤ
  finals : Option ℤ
  beds : Option ℤ
  star : Option ℤ
  xp : Option ℤ
  start_date : ℕ
deriving DecidableEq, Repr

/-- One stored row of the `sessions` table together with its key columns
`uuid` and `session_id`. -/
structure DbRow where
  uuid : String
  session_id : ℤ
  row : SessionRow
deriving DecidableEq, Repr

/-- The `sessions` table, in insertion order. -/
abbrev Db : Type := List DbRow

/-- Key match used by every `WHERE uuid=%s AND session_id=%s` clause. -/
def keyMatch (uuid : String) (session_id : ℤ) (r : DbRow) : Bool :=
  r.uuid == uuid && r.session_id == session_id

/-- Embedding of `Sessions.get_session`: `SELECT * FROM sessions WHERE
uuid=%s AND session_id=%s` followed by `fetchone()` — the first stored row
matching the key, or `none` (Python `None`) when there is none. -/
def get_session (db : Db) (uuid : String) (session_id : ℤ) : Option DbRow :=
  db.find? (keyMatch uuid session_id)

/-- Embedding of `Sessions.create_session`: reads the seven `PlayerInfo`
accessors for the UUID (each `none` when the source has no record) and
executes an `INSERT` of one new row with `start_date = NOW()`.  No
existence check happens here — the INSERT is unconditional. -/
def create_session (db : Db) (uuid : String) (session_id : ℤ)
    (source : StatsSource) (now : ℕ) : Db :=
  let player := source uuid
  db ++ [{ uuid := uuid, session_id := session_id,
           row := { wins := player.map PlayerSnapshot.wins,
                    weighted := player.map PlayerSnapshot.weightedwins,
                    kills := player.map PlayerSnapshot.kills,
                    finals := player.map PlayerSnapshot.finals,
                    beds := player.map PlayerSnapshot.beds,
                    star := player.map PlayerSnapshot.level,
                    xp := player.map PlayerSnapshot.exp,
                    start_date := now } }]

/-- Embedding of `Sessions.end_session`: `DELETE FROM sessions WHERE
uuid=%s AND session_id=%s` — removes every row matching the key. -/
def end_session (db : Db) (uuid : String) (session_id : ℤ) : Db :=
  List.filter (fun r => !(keyMatch uuid session_id r)) db

/-- Embedding of `Sessions.get_active_sessions`: `SELECT session_id FROM
sessions WHERE uuid=%s` followed by `fetchall()` — the session ids of all
rows stored for the player (the Python wrapper returns `None` instead of an
empty tuple; that is embedded as the empty list). -/
def get_active_sessions (db : Db) (uuid : String) : List ℤ :=
  (List.filter (fun r => r.uuid == uuid) db).map DbRow.session_id

/-- Outcome reported to the user by the `/session start` command. -/
inductive StartOutcome
  | alreadyActive
  | created
deriving DecidableEq, Repr

/-- Outcome reported to the user by the `/session end` command. -/
inductive EndOutcome
  | notActive
  | ended
deriving DecidableEq, Repr

/-- Embedding of the `/session start` command handler
(`Session.start_session`, app/cogs/game/sessions.py): it first calls
`get_session`; if a row exists it answers "this session is already active"
without touching the table, otherwise it calls `create_session`. -/
def start_session (db : Db) (uuid : String) (session_id : ℤ)
    (source : StatsSource) (now : ℕ) : StartOutcome × Db :=
  match get_session db uuid session_id with
  | some _ => (StartOutcome.alreadyActive, db)
  | none => (StartOutcome.created, create_session db uuid session_id source now)

/-- Embedding of the `/session end` command handler
(`Session.end_session`, app/cogs/game/sessions.py): it first calls
`get_session`; if a row exists it calls `end_session` (the DELETE),
otherwise it answers "you don't have an active session" and the table is
untouched. -/
def end_session_cmd (db : Db) (uuid : String) (session_id : ℤ) :
    EndOutcome × Db :=
  match get_session db uuid session_id with
  | some _ => (EndOutcome.ended, end_session db uuid session_id)
  | none => (EndOutcome.notActive, db)

/-! ## Helper lemmas -/

/-- The block chain lies between 5000 and 10000. -/
lemma blockValue_bounds (b : ℤ) : 5000 ≤ blockValue b ∧ blockValue b ≤ 10000 := by
  rw [blockValue]
  split_ifs <;> omega

/-- The block chain yields `5000 + 500 * block` for blocks 0 through 9. -/
lemma blockValue_eq_of_le (b : ℤ) (h0 : 0 ≤ b) (h9 : b ≤ 9) :
    blockValue b = 5000 + 500 * b := by
  rw [blockValue]
  split_ifs <;> omega

/-- Outside blocks 0 through 9 the block chain yields the 10000 plateau. -/
lemma blockValue_eq_top (b : ℤ) (h : b < 0 ∨ 10 ≤ b) : blockValue b = 10000 := by
  rw [blockValue]
  split_ifs <;> omega

/-- A value produced by the `cycle` dictionary is positive. -/
lemma cycle_pos (m v : ℤ) (h : cycle m = some v) : 0 < v := by
  rw [cycle] at h
  split_ifs at h <;> simp_all
  all_goals omega

/-- The `cycle` dictionary misses exactly the keys outside 0 through 4. -/
lemma cycle_eq_none (m : ℤ) : cycle m = none ↔ (m < 0 ∨ 4 < m) := by
  rw [cycle]
  split_ifs <;> simp_all
  all_goals omega

/-- Every branch of the level curve yields a positive value. -/
lemma get_xp_for_level_pos (level : ℤ) : 0 < get_xp_for_level level := by
  rw [get_xp_for_level]
  cases h : cycle (level % 100) with
  | none => exact lt_of_lt_of_le (by norm_num) (blockValue_bounds _).1
  | some v => exact cycle_pos _ v h

/-- Inserting the top endpoint into an integer interval. -/
lemma Ico_int_insert_top (a b : ℤ) (h : a ≤ b) :
    Finset.Ico a (b + 1) = insert b (Finset.Ico a b) := by
  ext x
  simp only [Finset.mem_Ico, Finset.mem_insert]
  omega

/-- The accumulation loop of `get_total_xp`, over a `ℕ`-indexed range,
equals the interval sum over `[1, 1 + n)` in `ℤ`. -/
lemma sum_range_xp (n : ℕ) :
    ((List.range n).map (fun (i : ℕ) => get_xp_for_level (1 + (i : ℤ)))).sum
      = ∑ l in Finset.Ico (1 : ℤ) (1 + (n : ℤ)), get_xp_for_level l := by
  induction n with
  | zero => simp
  | succ n ih =>
      rw [List.range_succ, List.map_append, List.sum_append, ih]
      have hcast : (1 : ℤ) + ((n + 1 : ℕ) : ℤ) = (1 + (n : ℤ)) + 1 := by
        push_cast
        ring
      rw [hcast, Ico_int_insert_top 1 (1 + (n : ℤ)) (by omega),
        Finset.sum_insert (by simp)]
      simp [add_comm]

/-- The loop of `get_total_xp` computes the interval sum of the level
curve over `[1, level)` (empty for `level ≤ 1`), plus the partial XP. -/
lemma get_total_xp_eq_sum (level x : ℤ) :
    get_total_xp level x
      = (∑ l in Finset.Ico (1 : ℤ) level, get_xp_for_level l) + x := by
  rw [get_total_xp]
  rcases le_or_lt level 1 with h | h
  · rw [Int.toNat_of_nonpos (by omega)]
    rw [Finset.Ico_eq_empty (by omega)]
    simp
  · have hlevel : level = 1 + ((level - 1).toNat : ℤ) := by omega
    rw [sum_range_xp, ← hlevel]

/-- The cycle branch of the curve, by the value of `level % 100`. -/
lemma get_xp_for_level_of_mod (level k : ℤ) (h : level % 100 = k)
    (h0 : 0 ≤ k) (h4 : k ≤ 4) : get_xp_for_level level = 1000 * (k + 1) := by
  rw [get_xp_for_level, h]
  interval_cases k <;> simp [cycle]

/-- The block branch of the curve, reached when `level % 100` misses the
cycle dictionary. -/
lemma get_xp_for_level_of_block (level : ℤ) (h : 4 < level % 100) :
    get_xp_for_level level = blockValue (level / 100) := by
  rw [get_xp_for_level, (cycle_eq_none (level % 100)).mpr (Or.inr h)]

/-! ## Claim theorems -/

/-- Claim C2.  For every non-negative level, `get_xp_for_level` returns the
cycle value `cycle[level % 100]` when `level % 100` is one of the keys
0–4 (hence `{1000, 2000, 3000, 4000, 5000}` regardless of the level's
century); otherwise it returns `5000 + 500 * block` for `block = level /
100` between 0 and 9, and 10000 for `block ≥ 10`; and the result is
strictly positive.  Because `level ≥ 0` gives `0 ≤ level % 100 < 100`,
"`level % 100` is not a key of `cycle`" is expressed as `4 < level % 100`,
and `0 ≤ level / 100` holds automatically. -/
theorem xp_for_level_spec (level : ℤ) (h : 0 ≤ level) :
    (∀ k : ℤ, 0 ≤ k → k ≤ 4 → level % 100 = k →
      get_xp_for_level level = 1000 * (k + 1))
    ∧ (4 < level % 100 → level / 100 ≤ 9 →
      get_xp_for_level level = 5000 + 500 * (level / 100))
    ∧ (4 < level % 100 → 10 ≤ level / 100 → get_xp_for_level level = 10000)
    ∧ 0 < get_xp_for_level level := by
  refine ⟨fun k hk0 hk4 hk => get_xp_for_level_of_mod level k hk hk0 hk4,
    fun hm hb => ?_, fun hm hb => ?_, get_xp_for_level_pos level⟩
  · rw [get_xp_for_level_of_block level hm,
      blockValue_eq_of_le _ (by omega) hb]
  · rw [get_xp_for_level_of_block level hm,
      blockValue_eq_top _ (Or.inr hb)]

/-- Witness for C2 at levels 3, 305 and 1005: the cycle key 3 gives 4000
whatever the century, block 3 gives 6500, block 10 gives 10000. -/
theorem xp_for_level_spec_witness :
    get_xp_for_level 203 = 1000 * (3 + 1)
    ∧ get_xp_for_level 305 = 5000 + 500 * 3
    ∧ get_xp_for_level 1005 = 10000 := by
  refine ⟨(xp_for_level_spec 203 (by norm_num)).1 3 (by norm_num) (by norm_num)
      (by decide), ?_, ?_⟩
  · have h := (xp_for_level_spec 305 (by norm_num)).2.1 (by decide) (by decide)
    simpa using h
  · exact (xp_for_level_spec 1005 (by norm_num)).2.2.1 (by decide) (by decide)

/-- Claim C9.  The level curve is a total function on all of `ℤ` (the
embedding is a total Lean function; Python's `%` and `//` are likewise
total for the constant divisor 100): its value always lies in the fifteen
possible branch outputs, and hence is bounded between 1000 and 10000,
including for negative levels, where Python's floor conventions put
`level % 100` in `[0, 100)` and `level // 100 ≤ -1`. -/
theorem xp_for_level_range (level : ℤ) :
    get_xp_for_level level ∈
      ([1000, 2000, 3000, 4000, 5000, 5500, 6000, 6500, 7000, 7500,
        8000, 8500, 9000, 9500, 10000] : List ℤ)
    ∧ 1000 ≤ get_xp_for_level level ∧ get_xp_for_level level ≤ 10000 := by
  have hrange : get_xp_for_level level ∈
      ([1000, 2000, 3000, 4000, 5000, 5500, 6000, 6500, 7000, 7500,
        8000, 8500, 9000, 9500, 10000] : List ℤ) := by
    rcases lt_or_le 4 (level % 100) with hm | hm
    · rw [get_xp_for_level_of_block level hm]
      rcases le_or_lt (level / 100) 9 with hb | hb
      · rcases le_or_lt 0 (level / 100) with hb0 | hb0
        · rw [blockValue_eq_of_le _ hb0 hb]
          have hcase : level / 100 = 0 ∨ level / 100 = 1 ∨ level / 100 = 2 ∨
              level / 100 = 3 ∨ level / 100 = 4 ∨ level / 100 = 5 ∨
              level / 100 = 6 ∨ level / 100 = 7 ∨ level / 100 = 8 ∨
              level / 100 = 9 := by omega
          rcases hcase with h | h | h | h | h | h | h | h | h | h <;>
            rw [h] <;> decide
        · rw [blockValue_eq_top _ (Or.inl hb0)]
          decide
      · rw [blockValue_eq_top _ (Or.inr (by omega))]
        decide
    · have h0 : 0 ≤ level % 100 := Int.emod_nonneg level (by norm_num)
      rw [get_xp_for_level_of_mod level (level % 100) rfl h0 hm]
      have hcase : level % 100 = 0 ∨ level % 100 = 1 ∨ level % 100 = 2 ∨
          level % 100 = 3 ∨ level % 100 = 4 := by omega
      rcases hcase with h | h | h | h | h <;> rw [h] <;> decide
  refine ⟨hrange, ?_⟩
  simp only [List.mem_cons, List.not_mem_nil, or_false] at hrange
  rcases hrange with h | h | h | h | h | h | h | h | h | h | h | h | h | h | h <;>
    omega

/-- Claim C3.  For non-negative level and partial XP, `get_total_xp`
equals the interval sum of `get_xp_for_level` over `[1, level)` (empty for
`level ≤ 1`) plus the partial XP; in particular `get_total_xp 1 x = x`. -/
theorem total_xp_spec (level x : ℤ) (_hl : 0 ≤ level) (_hx : 0 ≤ x) :
    get_total_xp level x
      = (∑ l in Finset.Ico (1 : ℤ) level, get_xp_for_level l) + x
    ∧ get_total_xp 1 x = x := by
  refine ⟨get_total_xp_eq_sum level x, ?_⟩
  rw [get_total_xp_eq_sum]
  simp

/-- Witness for C3 at `(level, x) = (4, 500)`: the sum over levels 1–3 of
the curve (2000 + 3000 + 4000) plus 500. -/
theorem total_xp_spec_witness :
    get_total_xp 4 500
      = (∑ l in Finset.Ico (1 : ℤ) 4, get_xp_for_level l) + 500
    ∧ get_total_xp 1 500 = 500 :=
  total_xp_spec 4 500 (by norm_num) (by norm_num)

/-- Claim C4.  With the partial XP fixed at 0, `get_total_xp` is
monotonically non-decreasing in the level. -/
theorem total_xp_monotone (a b : ℤ) (_ha : 0 ≤ a) (hab : a ≤ b) :
    get_total_xp a 0 ≤ get_total_xp b 0 := by
  rw [get_total_xp_eq_sum, get_total_xp_eq_sum, add_zero, add_zero]
  refine Finset.sum_le_sum_of_subset_of_nonneg
    (Finset.Ico_subset_Ico le_rfl hab) ?_
  intro i _ _
  exact (get_xp_for_level_pos i).le

/-- Witness for C4 at `a = 2`, `b = 5`. -/
theorem total_xp_monotone_witness : get_total_xp 2 0 ≤ get_total_xp 5 0 :=
  total_xp_monotone 2 5 (by norm_num) (by norm_num)

/-- Counterexample for C1 as stated.  On the concrete scenario of the
claim, the code returns an XP delta of 4700 and 0.94 stars (embedded as 94
hundredths), not 3700 and 0.74, because `get_total_xp 4 500 = 9500` (the
curve charges 2000 + 3000 + 4000 for levels 1–3, `cycle` being keyed by
`level % 100` so that level 1 costs 2000, not 1000) and
`get_total_xp 5 200 = 14200`, not 6500 and 10200. -/
theorem xp_and_stars_scenario_counterexample :
    get_xp_and_stars 4 500 5 200 = (4700, 94)
    ∧ get_xp_and_stars 4 500 5 200 ≠ (3700, 74)
    ∧ get_total_xp 4 500 ≠ 6500
    ∧ get_total_xp 5 200 ≠ 10200 := by
  refine ⟨by decide, by decide, by decide, by decide⟩

/-- Claim C1, amended.  For every pair of snapshots, `get_xp_and_stars`
returns the XP delta `get_total_xp new - get_total_xp old` and that delta
converted to stars at the fixed rate of one star per 5000 XP, rounded to
two decimals (embedded as a number of hundredths); equal snapshots yield
`(0, 0.0)` for any level; and on the concrete scenario `old = (4, 500)`,
`new = (5, 200)` it returns `(4700, 0.94)`, since `get_total_xp 4 500 =
9500` and `get_total_xp 5 200 = 14200`. -/
theorem xp_and_stars_spec :
    (∀ old_level old_xp new_level new_xp : ℤ,
      (get_xp_and_stars old_level old_xp new_level new_xp).1
          = get_total_xp new_level new_xp - get_total_xp old_level old_xp
        ∧ (get_xp_and_stars old_level old_xp new_level new_xp).2
          = roundHalfEvenDiv
              ((get_total_xp new_level new_xp
                - get_total_xp old_level old_xp) * 100) 5000)
    ∧ (∀ L : ℤ, get_xp_and_stars L 0 L 0 = (0, 0))
    ∧ get_xp_and_stars 4 500 5 200 = (4700, 94)
    ∧ get_total_xp 4 500 = 9500
    ∧ get_total_xp 5 200 = 14200 := by
  refine ⟨fun a b c d => ⟨rfl, rfl⟩, fun L => ?_, by decide, by decide, by decide⟩
  show (_, _) = _
  rw [sub_self]
  rfl

/-- Claim C10.  The XP-gained component of `get_xp_and_stars` is
antisymmetric under swapping the old and new snapshots. -/
theorem xp_gained_antisymm (a b c d : ℤ)
    (_ha : 0 ≤ a) (_hb : 0 ≤ b) (_hc : 0 ≤ c) (_hd : 0 ≤ d) :
    (get_xp_and_stars a b c d).1 = -(get_xp_and_stars c d a b).1 := by
  show get_total_xp c d - get_total_xp a b = -(get_total_xp a b - get_total_xp c d)
  ring

/-- Witness for C10 at the scenario snapshots `(4, 500)` and `(5, 200)`. -/
theorem xp_gained_antisymm_witness :
    (get_xp_and_stars 4 500 5 200).1 = -(get_xp_and_stars 5 200 4 500).1 :=
  xp_gained_antisymm 4 500 5 200 (by norm_num) (by norm_num) (by norm_num)
    (by norm_num)

/-- Looking up the key just inserted by `create_session` finds the inserted
row, provided no row with that key existed before. -/
lemma get_session_create_of_none (db : Db) (u : String) (s : ℤ)
    (src : StatsSource) (now : ℕ) (h : get_session db u s = none) :
    get_session (create_session db u s src now) u s
      = some { uuid := u, session_id := s,
               row := { wins := (src u).map PlayerSnapshot.wins,
                        weighted := (src u).map PlayerSnapshot.weightedwins,
                        kills := (src u).map PlayerSnapshot.kills,
                        finals := (src u).map PlayerSnapshot.finals,
                        beds := (src u).map PlayerSnapshot.beds,
                        star := (src u).map PlayerSnapshot.level,
                        xp := (src u).map PlayerSnapshot.exp,
                        start_date := now } } := by
  rw [get_session] at h
  rw [create_session, get_session, List.find?_append, h]
  simp [List.find?, keyMatch]

/-- After the DELETE of `end_session`, no row with the deleted key
remains. -/
lemma get_session_end_session (db : Db) (u : String) (s : ℤ) :
    get_session (end_session db u s) u s = none := by
  rw [get_session, List.find?_eq_none]
  intro x hx
  rw [end_session, List.mem_filter] at hx
  simpa using hx.2

/-- Claim C5.  The `/session start` flow fails with "already active" and
leaves the table unchanged when a row exists for the key; when none
exists, it fetches the snapshot from the source and inserts exactly one
new row for the key, carrying the fetched values and `start_date = now`;
consequently a second start for the same key fails with "already
active". -/
theorem start_session_spec (db : Db) (u : String) (s : ℤ) (src : StatsSource)
    (now now2 : ℕ) :
    ((get_session db u s).isSome →
      start_session db u s src now = (StartOutcome.alreadyActive, db))
    ∧ (get_session db u s = none →
      start_session db u s src now
        = (StartOutcome.created,
           db ++ [{ uuid := u, session_id := s,
                    row := { wins := (src u).map PlayerSnapshot.wins,
                             weighted := (src u).map PlayerSnapshot.weightedwins,
                             kills := (src u).map PlayerSnapshot.kills,
                             finals := (src u).map PlayerSnapshot.finals,
                             beds := (src u).map PlayerSnapshot.beds,
                             star := (src u).map PlayerSnapshot.level,
                             xp := (src u).map PlayerSnapshot.exp,
                             start_date := now } }])
      ∧ (start_session (start_session db u s src now).2 u s src now2).1
          = StartOutcome.alreadyActive) := by
  constructor
  · intro h
    obtain ⟨r, hr⟩ := Option.isSome_iff_exists.mp h
    simp [start_session, hr]
  · intro h
    have h2 := get_session_create_of_none db u s src now h
    refine ⟨by simp [start_session, h, create_session], ?_⟩
    simp [start_session, h, h2]

/-- Witness for C5: starting a session on an empty table inserts the
fetched snapshot row, and starting again reports "already active". -/
theorem start_session_spec_witness :
    start_session [] "p" 1 (fun _ => some ⟨15, 28, 9, 3, 1, 5, 200⟩) 7
      = (StartOutcome.created,
         [{ uuid := "p", session_id := 1,
            row := { wins := some 15, weighted := some 28, kills := some 9,
                     finals := some 3, beds := some 1, star := some 5,
                     xp := some 200, start_date := 7 } }])
    ∧ (start_session
        (start_session [] "p" 1 (fun _ => some ⟨15, 28, 9, 3, 1, 5, 200⟩) 7).2
        "p" 1 (fun _ => some ⟨15, 28, 9, 3, 1, 5, 200⟩) 8).1
      = StartOutcome.alreadyActive := by
  have h := (start_session_spec [] "p" 1
    (fun _ => some ⟨15, 28, 9, 3, 1, 5, 200⟩) 7 8).2 rfl
  exact ⟨h.1, h.2⟩

/-- Claim C6.  The `/session end` flow fails with "not active" and leaves
the table unchanged when no row exists for the key; when a row exists it
reports success and deletes it, so the key afterwards reads as absent; in
particular ending right after a successful start leaves the key absent. -/
theorem end_session_cmd_spec (db : Db) (u : String) (s : ℤ)
    (src : StatsSource) (now : ℕ) :
    (get_session db u s = none →
      end_session_cmd db u s = (EndOutcome.notActive, db))
    ∧ ((get_session db u s).isSome →
      (end_session_cmd db u s).1 = EndOutcome.ended
        ∧ get_session (end_session_cmd db u s).2 u s = none)
    ∧ (get_session db u s = none →
      get_session (end_session_cmd (start_session db u s src now).2 u s).2 u s
        = none) := by
  refine ⟨fun h => by simp [end_session_cmd, h], fun h => ?_, fun h => ?_⟩
  · obtain ⟨r, hr⟩ := Option.isSome_iff_exists.mp h
    refine ⟨by simp [end_session_cmd, hr], ?_⟩
    simp [end_session_cmd, hr, get_session_end_session]
  · have h2 := get_session_create_of_none db u s src now h
    simp [start_session, h, end_session_cmd, h2, get_session_end_session]

/-- Witness for C6: ending on an empty table reports "not active"; ending
right after a successful start removes the row. -/
theorem end_session_cmd_spec_witness :
    end_session_cmd [] "p" 1 = (EndOutcome.notActive, [])
    ∧ get_session
        (end_session_cmd
          (start_session [] "p" 1 (fun _ => some ⟨15, 28, 9, 3, 1, 5, 200⟩) 7).2
          "p" 1).2 "p" 1 = none :=
  ⟨(end_session_cmd_spec [] "p" 1 (fun _ => some ⟨15, 28, 9, 3, 1, 5, 200⟩) 7).1
      rfl,
   (end_session_cmd_spec [] "p" 1 (fun _ => some ⟨15, 28, 9, 3, 1, 5, 200⟩) 7).2.2
      rfl⟩

/-- Claim C7.  For every player, `get_active_sessions` contains a slot
number exactly when a session row for that (player, slot) key is stored,
and it is empty exactly when the player has no stored session row for any
slot. -/
theorem active_sessions_spec (db : Db) (u : String) :
    (∀ s : ℤ, s ∈ get_active_sessions db u ↔ (get_session db u s).isSome)
    ∧ (get_active_sessions db u = [] ↔ ∀ s : ℤ, get_session db u s = none) := by
  have hmem : ∀ s : ℤ,
      s ∈ get_active_sessions db u ↔ (get_session db u s).isSome := by
    intro s
    rw [get_active_sessions, get_session, List.find?_isSome, List.mem_map]
    constructor
    · rintro ⟨r, hr, rfl⟩
      rw [List.mem_filter] at hr
      exact ⟨r, hr.1, by simp [keyMatch, hr.2]⟩
    · rintro ⟨r, hr, hk⟩
      rw [keyMatch] at hk
      simp only [Bool.and_eq_true, beq_iff_eq] at hk
      exact ⟨r, List.mem_filter.mpr ⟨hr, by simp [hk.1]⟩, hk.2⟩
  refine ⟨hmem, ?_⟩
  rw [List.eq_nil_iff_forall_not_mem]
  constructor
  · intro h s
    cases hgs : get_session db u s with
    | none => rfl
    | some r => exact absurd ((hmem s).mpr (by rw [hgs]; rfl)) (h s)
  · intro h x hx
    have hs := (hmem x).mp hx
    rw [h x] at hs
    simp at hs

/-- Witness for C7 on a one-row table: slot 1 is listed as active, slot 2
is not. -/
theorem active_sessions_spec_witness :
    ((1 : ℤ) ∈ get_active_sessions
        [{ uuid := "p", session_id := 1,
           row := { wins := some 15, weighted := some 28, kills := some 9,
                    finals := some 3, beds := some 1, star := some 5,
                    xp := some 200, start_date := 7 } }] "p"
      ↔ (get_session
          [{ uuid := "p", session_id := 1,
             row := { wins := some 15, weighted := some 28, kills := some 9,
                      finals := some 3, beds := some 1, star := some 5,
                      xp := some 200, start_date := 7 } }] "p" 1).isSome) :=
  (active_sessions_spec
    [{ uuid := "p", session_id := 1,
       row := { wins := some 15, weighted := some 28, kills := some 9,
                finals := some 3, beds := some 1, star := some 5,
                xp := some 200, start_date := 7 } }] "p").1 1

/-- Claim C8, evaluated at a failing input.  For a player the source
reports as unavailable (`fun _ => none`), the start flow does NOT fail:
`create_session` awaits each `PlayerInfo` accessor, obtains `None` for
every counter, and executes the INSERT anyway, storing a row whose seven
counter columns are all `none` (SQL `NULL`).  Nothing in the repository
checks the fetched values before the INSERT, contradicting the
requirement that an unavailable fetch be fatal and insert nothing. -/
theorem start_session_unavailable_inserts_row :
    start_session [] "p" 1 (fun _ => none) 0
      = (StartOutcome.created,
         [{ uuid := "p", session_id := 1,
            row := { wins := none, weighted := none, kills := none,
                     finals := none, beds := none, star := none,
                     xp := none, start_date := 0 } }]) := by
  rfl

end VoxStats
